import Mathlib

/-!
Verification of the UDAE core (content-addressed domain model, pipeline
kernel, decision engine, APA7 layout rule-evaluation module) against its
natural-language specification.

The Python sources are shallowly embedded:
* `core/models/hashes.py` — `hash_json` is modelled as canonical JSON
  serialization (`json.dumps(obj, sort_keys=True, separators=(',',':'))`,
  `ensure_ascii` default) followed by a full SHA-256 implementation.
* Python JSON-serializable values are modelled by the inductive `PyVal`
  (null / bool / int / str / list / dict).  Python floats do not occur in
  any hashed payload used by the claims and are not modelled.
* Python dicts are association lists; `json.dumps(sort_keys=True)` sorts
  entries by key.  Since Python dict keys are unique, sorting the
  serialized `(key, value-string)` pairs by key (stable insertion sort)
  produces exactly the entry order Python serializes.
-/

/- ### Small string helpers -/

def joinComma : List String → String
  | [] => ""
  | [s] => s
  | s :: rest => s ++ "," ++ joinComma rest

def hexDigit (n : Nat) : Char :=
  if n < 10 then Char.ofNat (48 + n) else Char.ofNat (87 + n)

/-- Four lowercase hex digits, as produced by Python for a `\uXXXX` escape. -/
def hex4 (n : Nat) : String :=
  String.mk [hexDigit (n / 4096 % 16), hexDigit (n / 256 % 16),
             hexDigit (n / 16 % 16), hexDigit (n % 16)]

/-- Two lowercase hex digits of a byte, as in `hashlib.sha256(...).hexdigest()`. -/
def hex2 (n : Nat) : String :=
  String.mk [hexDigit (n / 16 % 16), hexDigit (n % 16)]

/-- Escape of one character inside a JSON string literal, following
CPython's `json` encoder with `ensure_ascii=True`: the characters in
`0x20..0x7E` other than `"` and `\` pass through; `\b \t \n \f \r \" \\`
use the short escapes; everything else becomes `\uXXXX` (with a surrogate
pair above `0xFFFF`). -/
def escapeChar (c : Char) : String :=
  if c = Char.ofNat 34 then "\\\""
  else if c = Char.ofNat 92 then "\\\\"
  else if c = Char.ofNat 8 then "\\b"
  else if c = Char.ofNat 9 then "\\t"
  else if c = Char.ofNat 10 then "\\n"
  else if c = Char.ofNat 12 then "\\f"
  else if c = Char.ofNat 13 then "\\r"
  else if 32 ≤ c.toNat && c.toNat ≤ 126 then String.mk [c]
  else if c.toNat < 65536 then "\\u" ++ hex4 c.toNat
  else
    "\\u" ++ hex4 (55296 + (c.toNat - 65536) / 1024) ++
    "\\u" ++ hex4 (56320 + (c.toNat - 65536) % 1024)

def escapeChars : List Char → String
  | [] => ""
  | c :: cs => escapeChar c ++ escapeChars cs

/-- JSON string literal for `s`, per CPython's encoder. -/
def quoteStr (s : String) : String :=
  "\"" ++ escapeChars s.data ++ "\""

/- ### Python JSON-serializable values -/

/-- A finite, acyclic Python value of the shapes the core ever hashes:
`None`, `bool`, `int`, `str`, `list`, `dict` (as an insertion-ordered
association list). -/
inductive PyVal where
  | null : PyVal
  | bool (b : Bool) : PyVal
  | int (n : Int) : PyVal
  | str (s : String) : PyVal
  | list (xs : List PyVal) : PyVal
  | dict (kvs : List (String × PyVal)) : PyVal

/-- Key order used by `sort_keys=True` on serialized entries. -/
def keyLe (p q : String × String) : Prop := p.1 ≤ q.1

instance : DecidableRel keyLe := fun p q => inferInstanceAs (Decidable (p.1 ≤ q.1))

/-- Key order on raw dict entries (used by the structural-equality test). -/
def keyLePV (p q : String × PyVal) : Prop := p.1 ≤ q.1

instance : DecidableRel keyLePV := fun p q => inferInstanceAs (Decidable (p.1 ≤ q.1))

def entryStr (p : String × String) : String := quoteStr p.1 ++ ":" ++ p.2

mutual

/-- Canonical serialization: `json.dumps(v, sort_keys=True, separators=(',',':'))`. -/
def dumpsCanon : PyVal → String
  | PyVal.null => "null"
  | PyVal.bool b => cond b "true" "false"
  | PyVal.int n => toString n
  | PyVal.str s => quoteStr s
  | PyVal.list xs => "[" ++ joinComma (dumpsList xs) ++ "]"
  | PyVal.dict kvs =>
      "\x7b" ++ joinComma ((List.insertionSort keyLe (dumpsEntries kvs)).map entryStr) ++ "\x7d"

def dumpsList : List PyVal → List String
  | [] => []
  | v :: vs => dumpsCanon v :: dumpsList vs

def dumpsEntries : List (String × PyVal) → List (String × String)
  | [] => []
  | (k, v) :: kvs => (k, dumpsCanon v) :: dumpsEntries kvs

end

/- ### SHA-256 (`hashlib.sha256`) over 32-bit words modelled as `Nat % 2^32` -/

def w32 (n : Nat) : Nat := n % 4294967296

def rotr32 (k x : Nat) : Nat :=
  w32 ((x >>> k) ||| ((x % (2 ^ k)) <<< (32 - k)))

def sha256K : List Nat :=
  [1116352408, 1899447441, 3049323471, 3921009573, 961987163, 1508970993,
   2453635748, 2870763221, 3624381080, 310598401, 607225278, 1426881987,
   1925078388, 2162078206, 2614888103, 3248222580, 3835390401, 4022224774,
   264347078, 604807628, 770255983, 1249150122, 1555081692, 1996064986,
   2554220882, 2821834349, 2952996808, 3210313671, 3336571891, 3584528711,
   113926993, 338241895, 666307205, 773529912, 1294757372, 1396182291,
   1695183700, 1986661051, 2177026350, 2456956037, 2730485921, 2820302411,
   3259730800, 3345764771, 3516065817, 3600352804, 4094571909, 275423344,
   430227734, 506948616, 659060556, 883997877, 958139571, 1322822218,
   1537002063, 1747873779, 1955562222, 2024104815, 2227730452, 2361852424,
   2428436474, 2756734187, 3204031479, 3329325298]

def sha256H0 : List Nat :=
  [1779033703, 3144134277, 1013904242, 2773480762,
   1359893119, 2600822924, 528734635, 1541459225]

/-- Big-endian 8-byte encoding of the message bit length. -/
def be64 (n : Nat) : List Nat :=
  [n >>> 56 % 256, n >>> 48 % 256, n >>> 40 % 256, n >>> 32 % 256,
   n >>> 24 % 256, n >>> 16 % 256, n >>> 8 % 256, n % 256]

/-- SHA-256 padding: `0x80`, zeros to 56 mod 64, then the bit length. -/
def sha256Pad (msg : List Nat) : List Nat :=
  msg ++ [128] ++ List.replicate ((119 - msg.length % 64) % 64) 0 ++ be64 (8 * msg.length)

/-- Split the padded message into 64-byte blocks. -/
def toBlocks (l : List Nat) : List (List Nat) :=
  match l with
  | [] => []
  | x :: xs =>
      ((x :: xs).take 64) :: toBlocks ((x :: xs).drop 64)
termination_by l.length
decreasing_by
  simp only [List.drop, List.length_cons, List.length_drop]
  omega

/-- Big-endian 32-bit words of one 64-byte block. -/
def toWords : List Nat → List Nat
  | b0 :: b1 :: b2 :: b3 :: rest => (b0 <<< 24 ||| b1 <<< 16 ||| b2 <<< 8 ||| b3) :: toWords rest
  | _ => []

def smallSigma0 (x : Nat) : Nat := rotr32 7 x ^^^ rotr32 18 x ^^^ (x >>> 3)

def smallSigma1 (x : Nat) : Nat := rotr32 17 x ^^^ rotr32 19 x ^^^ (x >>> 10)

def bigSigma0 (x : Nat) : Nat := rotr32 2 x ^^^ rotr32 13 x ^^^ rotr32 22 x

def bigSigma1 (x : Nat) : Nat := rotr32 6 x ^^^ rotr32 11 x ^^^ rotr32 25 x

/-- Extend the 16-word schedule by `k` further words. -/
def extendSchedule : List Nat → Nat → List Nat
  | ws, 0 => ws
  | ws, k + 1 =>
      extendSchedule
        (ws ++ [w32 (ws.getD (ws.length - 16) 0 + smallSigma0 (ws.getD (ws.length - 15) 0) +
                     ws.getD (ws.length - 7) 0 + smallSigma1 (ws.getD (ws.length - 2) 0))])
        k

/-- One round of the SHA-256 compression function on state `[a,b,c,d,e,f,g,h]`. -/
def compressStep (st : List Nat) (kw : Nat × Nat) : List Nat :=
  match st with
  | [a, b, c, d, e, f, g, h] =>
      let t1 := w32 (h + bigSigma1 e + ((e &&& f) ^^^ ((4294967295 - e) &&& g)) + kw.1 + kw.2)
      let t2 := w32 (bigSigma0 a + ((a &&& b) ^^^ (a &&& c) ^^^ (b &&& c)))
      [w32 (t1 + t2), a, b, c, w32 (d + t1), e, f, g]
  | _ => st

/-- Process one 64-byte block, updating the eight hash words. -/
def sha256Block (hs : List Nat) (block : List Nat) : List Nat :=
  let ws := extendSchedule (toWords block) 48
  let st := (sha256K.zip ws).foldl compressStep hs
  List.zipWith (fun x y => w32 (x + y)) hs st

def be32 (n : Nat) : List Nat :=
  [n >>> 24 % 256, n >>> 16 % 256, n >>> 8 % 256, n % 256]

/-- SHA-256 digest (32 bytes) of a byte list. -/
def sha256Bytes (msg : List Nat) : List Nat :=
  ((toBlocks (sha256Pad msg)).foldl sha256Block sha256H0).flatMap be32

/-- UTF-8 encoding of one character (`str.encode('utf-8')`). -/
def utf8Char (c : Char) : List Nat :=
  let n := c.toNat
  if n < 128 then [n]
  else if n < 2048 then [192 + n / 64, 128 + n % 64]
  else if n < 65536 then [224 + n / 4096, 128 + n / 64 % 64, 128 + n % 64]
  else [240 + n / 262144, 128 + n / 4096 % 64, 128 + n / 64 % 64, 128 + n % 64]

def utf8Bytes (s : String) : List Nat := s.data.flatMap utf8Char

/-- Model of `hashlib.sha256(text.encode('utf-8')).hexdigest()` — `hash_string` /
`hash_bytes` of `core/models/hashes.py`. -/
def hash_string (s : String) : String :=
  (sha256Bytes (utf8Bytes s)).foldl (fun acc b => acc ++ hex2 b) ""

/-- Model of `hash_json` of `core/models/hashes.py`: canonical JSON then SHA-256. -/
def hash_json (v : PyVal) : String :=
  hash_string (dumpsCanon v)

/- ### Domain models (`core/models/*.py`) -/

/-- Python `sorted` on a list of strings (code-point lexicographic order). -/
def sortStrings (l : List String) : List String :=
  List.insertionSort (fun a b : String => a ≤ b) l

/-- Model of `core/models/verdict.py` — immutable rule-evaluation outcome.
`verdict_id` is the field computed by `__post_init__`. -/
structure Verdict where
  rule_id : String
  snapshot_id : String
  result : String
  evidence_ids : List String
  reasoning : String
  severity : String
  verdict_id : String
deriving DecidableEq

/-- The dataclass constructor followed by `Verdict.__post_init__`:
`verdict_id = hash_json` of the content dict, with `evidence_ids` sorted. -/
def Verdict.build (rule_id snapshot_id result : String) (evidence_ids : List String)
    (reasoning severity : String) : Verdict :=
  let verdict_dict := PyVal.dict
    [("rule_id", PyVal.str rule_id),
     ("snapshot_id", PyVal.str snapshot_id),
     ("result", PyVal.str result),
     ("evidence_ids", PyVal.list ((sortStrings evidence_ids).map PyVal.str)),
     ("reasoning", PyVal.str reasoning),
     ("severity", PyVal.str severity)]
  ⟨rule_id, snapshot_id, result, evidence_ids, reasoning, severity, hash_json verdict_dict⟩

/-- Model of `core/models/rule.py` — immutable normative rule. -/
structure Rule where
  code : String
  version : String
  description : String
  logic_type : String
  consequent : String
  evidence_field : String
  severity : String
  condition : Option String
  rule_id : String
deriving DecidableEq

/-- The dataclass constructor followed by `Rule.__post_init__`
(`condition = None` serializes as JSON `null`). -/
def Rule.build (code version description logic_type consequent evidence_field severity : String)
    (condition : Option String := none) : Rule :=
  let rule_dict := PyVal.dict
    [("code", PyVal.str code),
     ("version", PyVal.str version),
     ("description", PyVal.str description),
     ("logic_type", PyVal.str logic_type),
     ("condition", match condition with | none => PyVal.null | some c => PyVal.str c),
     ("consequent", PyVal.str consequent),
     ("evidence_field", PyVal.str evidence_field),
     ("severity", PyVal.str severity)]
  ⟨code, version, description, logic_type, consequent, evidence_field, severity, condition,
   hash_json rule_dict⟩

/-- Model of `core/arana/decision.py` — immutable final decision. -/
structure Decision where
  status : String
  blocking_failures : List Verdict
  non_blocking_failures : List Verdict
  all_verdicts : List Verdict
  decision_hash : String
deriving DecidableEq

/-- The dataclass constructor followed by `Decision.__post_init__`:
each verdict list contributes its `verdict_id`s sorted. -/
def Decision.build (status : String) (blocking_failures non_blocking_failures all_verdicts :
    List Verdict) : Decision :=
  let decision_dict := PyVal.dict
    [("status", PyVal.str status),
     ("blocking_failures",
       PyVal.list ((sortStrings (blocking_failures.map Verdict.verdict_id)).map PyVal.str)),
     ("non_blocking_failures",
       PyVal.list ((sortStrings (non_blocking_failures.map Verdict.verdict_id)).map PyVal.str)),
     ("all_verdicts",
       PyVal.list ((sortStrings (all_verdicts.map Verdict.verdict_id)).map PyVal.str))]
  ⟨status, blocking_failures, non_blocking_failures, all_verdicts, hash_json decision_dict⟩

/- ### Decision engine (`core/arana/*.py`) -/

/-- Model of `aggregate_verdicts` of `core/arana/aggregator.py`: partition into
(blocking_failures, non_blocking_failures, blocking_passes,
non_blocking_passes), preserving the input order inside each bucket
exactly as the Python append-loop does. -/
def aggregate_verdicts : List Verdict → List Verdict × List Verdict × List Verdict × List Verdict
  | [] => ([], [], [], [])
  | v :: rest =>
    let p := aggregate_verdicts rest
    let is_blocking := v.severity == "error"
    let is_failure := v.result == "FAIL"
    if is_failure && is_blocking then (v :: p.1, p.2.1, p.2.2.1, p.2.2.2)
    else if is_failure && !is_blocking then (p.1, v :: p.2.1, p.2.2.1, p.2.2.2)
    else if !is_failure && is_blocking then (p.1, p.2.1, v :: p.2.2.1, p.2.2.2)
    else (p.1, p.2.1, p.2.2.1, v :: p.2.2.2)

/-- Model of `apply_precedence` of `core/arana/precedence.py`. -/
def apply_precedence (blocking_failures : List Verdict) : String :=
  if blocking_failures.length > 0 then "FAIL" else "PASS"

/-- The part of `PipelineContext` that `AranaStage.execute` reads:
`context.meta.get("verdicts", [])` — `none` models a `meta` mapping with
no `"verdicts"` key. -/
structure AranaContext where
  verdicts : Option (List Verdict)

def AranaContext.verdictList (ctx : AranaContext) : List Verdict :=
  ctx.verdicts.getD []

/-- The `Decision` built inside `AranaStage.execute`
(`core/arana/stage.py`): aggregate, apply precedence, construct. -/
def arana_decision (ctx : AranaContext) : Decision :=
  let verdicts := ctx.verdictList
  let agg := aggregate_verdicts verdicts
  let status := apply_precedence agg.1
  Decision.build status agg.1 agg.2.1 verdicts

/- ### Pipeline kernel (`core/kernel/*.py`) -/

/-- Model of `StageResult` of `core/kernel/stages.py`, with the stage payload and
error types left abstract (`output: Any | None`, `error: Exception | None`). -/
structure StageResult (α ε : Type) where
  ok : Bool
  blocking : Bool
  output : Option α := none
  error : Option ε := none
deriving DecidableEq

/-- Model of `StageName` of `core/kernel/stages.py`. -/
inductive StageName where
  | stage_a
  | stage_b
  | stage_c
deriving DecidableEq

/-- The `.value` of the string-backed enum member. -/
def StageName.value : StageName → String
  | .stage_a => "stage_a"
  | .stage_b => "stage_b"
  | .stage_c => "stage_c"

/-- Model of `StageDefinition` of `core/kernel/stages.py` over an abstract context
type `γ`. -/
structure StageDefinition (γ α ε : Type) where
  name : StageName
  blocking : Bool
  fn : γ → StageResult α ε

/-- Model of `BlockingStageError` of `core/kernel/errors.py`; its `details` payload
is the dict `{"error": result.error, "output": result.output}`. -/
structure BlockingStageErr (α ε : Type) where
  stage_name : String
  reason : String
  details_error : Option ε
  details_output : Option α
deriving DecidableEq

/-- Model of `AranaStage.execute` of `core/arana/stage.py`. -/
def arana_execute (ctx : AranaContext) : StageResult Decision String :=
  let decision := arana_decision ctx
  { blocking := true, ok := decision.status == "PASS", output := some decision, error := none }

/-- Model of `Pipeline.execute` of `core/kernel/pipeline.py`.  The first component
is `self._results` (every appended `StageResult`, in execution order); the
second is `some e` when the run raises `BlockingStageError e`, `none` when
it returns normally. -/
def pipeline_execute {γ α ε : Type} :
    List (StageDefinition γ α ε) → γ → List (StageResult α ε) × Option (BlockingStageErr α ε)
  | [], _ => ([], none)
  | stage_def :: rest, ctx =>
    let result := stage_def.fn ctx
    if !result.ok && result.blocking then
      ([result],
       some ⟨stage_def.name.value, "Stage failed with blocking=True", result.error, result.output⟩)
    else
      let p := pipeline_execute rest ctx
      (result :: p.1, p.2)

/- ### APA7 layout module (`core/amanecer/apa7_layout/*.py`)

Margins, font size and line spacing are Python floats; every value the
module compares or the claims mention is an exact decimal, so they are
modelled as rationals (the comparisons `abs(value - 1.0) <= 0.01`,
`== 12.0`, `== 2.0` give the same booleans at every input of the claims). -/

namespace Apa7

/-- Model of `LayoutFacts` of `extractor.py`: every field optional, `none` is the
absent marker (`None`). -/
structure LayoutFacts where
  margin_top : Option ℚ := none
  margin_bottom : Option ℚ := none
  margin_left : Option ℚ := none
  margin_right : Option ℚ := none
  font_name : Option String := none
  font_size : Option ℚ := none
  line_spacing : Option ℚ := none
  page_numbering : Option Bool := none
deriving DecidableEq

/-- The `"layout"` dict inside the context's `"metadata"` dict; a missing
key yields `none` via `.get`. -/
structure LayoutMeta where
  margin_top : Option ℚ := none
  margin_bottom : Option ℚ := none
  margin_left : Option ℚ := none
  margin_right : Option ℚ := none
  font_name : Option String := none
  font_size : Option ℚ := none
  line_spacing : Option ℚ := none
  page_numbering : Option Bool := none
deriving DecidableEq

def emptyLayoutMeta : LayoutMeta := {}

/-- The context's `"metadata"` dict (`layout = none` models a metadata
dict without a `"layout"` key). -/
structure DocMetadata where
  layout : Option LayoutMeta := none
deriving DecidableEq

/-- The part of the context dict read by `extract_layout_facts`
(`metadata = none` models a context without a `"metadata"` key). -/
structure LayoutContext where
  metadata : Option DocMetadata := none
deriving DecidableEq

/-- Model of `context.get("metadata", {}).get("layout", {})`. -/
def layoutOf (context : LayoutContext) : LayoutMeta :=
  ((context.metadata.getD {}).layout).getD emptyLayoutMeta

/-- Model of `extract_layout_facts` of `extractor.py`: verbatim field copies. -/
def extract_layout_facts (context : LayoutContext) : LayoutFacts :=
  let layout := layoutOf context
  { margin_top := layout.margin_top
    margin_bottom := layout.margin_bottom
    margin_left := layout.margin_left
    margin_right := layout.margin_right
    font_name := layout.font_name
    font_size := layout.font_size
    line_spacing := layout.line_spacing
    page_numbering := layout.page_numbering }

/-- Model of `Rule` of `rules.py` (the layout module's own rule record, distinct
from `core/models/rule.py`). -/
structure LayoutRule where
  rule_code : String
  description : String
  severity : String
  blocking : Bool
deriving DecidableEq

/-- Model of `APA7_LAYOUT_RULES` of `rules.py`, verbatim. -/
def APA7_LAYOUT_RULES : List LayoutRule :=
  [⟨"APA7-MARGIN-TOP", "Top margin must be exactly 1 inch", "critical", true⟩,
   ⟨"APA7-MARGIN-BOTTOM", "Bottom margin must be exactly 1 inch", "critical", true⟩,
   ⟨"APA7-MARGIN-LEFT", "Left margin must be exactly 1 inch", "critical", true⟩,
   ⟨"APA7-MARGIN-RIGHT", "Right margin must be exactly 1 inch", "critical", true⟩,
   ⟨"APA7-FONT-VALID", "Font must be Times New Roman, Calibri, Arial, or Georgia", "critical", true⟩,
   ⟨"APA7-FONT-SIZE-TNR", "Times New Roman must be 12pt", "critical", true⟩,
   ⟨"APA7-FONT-SIZE-CALIBRI", "Calibri must be 11pt", "critical", true⟩,
   ⟨"APA7-FONT-SIZE-ARIAL", "Arial must be 11pt", "critical", true⟩,
   ⟨"APA7-FONT-SIZE-GEORGIA", "Georgia must be 11pt", "critical", true⟩,
   ⟨"APA7-LINE-SPACING", "Line spacing must be double (2.0)", "critical", true⟩,
   ⟨"APA7-PAGE-NUMBERING", "Page numbering must be present", "error", true⟩]

/-- Model of `VALID_FONTS` of `rules.py` (name → required size in points). -/
def VALID_FONTS : List (String × ℚ) :=
  [("Times New Roman", 12), ("Calibri", 11), ("Arial", 11), ("Georgia", 11)]

/-- Model of `REQUIRED_MARGIN = 1.0` (inches). -/
def REQUIRED_MARGIN : ℚ := 1

/-- Model of `REQUIRED_LINE_SPACING = 2.0`. -/
def REQUIRED_LINE_SPACING : ℚ := 2

/-- Model of `MARGIN_TOLERANCE = 0.01` (inches). -/
def MARGIN_TOLERANCE : ℚ := 1 / 100

/-- A value of the dynamically-typed `expected_value` / `actual_value`
fields of `Evidence`. -/
inductive EvVal where
  | num (q : ℚ)
  | str (s : String)
  | strList (l : List String)
  | bool (b : Bool)
  | pyNone
deriving DecidableEq

def optNum : Option ℚ → EvVal
  | none => EvVal.pyNone
  | some q => EvVal.num q

def optStr : Option String → EvVal
  | none => EvVal.pyNone
  | some s => EvVal.str s

def optBool : Option Bool → EvVal
  | none => EvVal.pyNone
  | some b => EvVal.bool b

/-- Model of `Evidence` of `validator.py` (the source field `match` is `matchB`
here; `match` is a reserved word in Lean). -/
structure Evidence where
  rule_code : String
  fact_name : String
  expected_value : EvVal
  actual_value : EvVal
  matchB : Bool
deriving DecidableEq

/-- Model of `Verdict` of `validator.py` (the layout module's own verdict record,
distinct from `core/models/verdict.py`). -/
structure LayoutVerdict where
  rule_code : String
  description : String
  result : String
  severity : String
  blocking : Bool
  evidence : List Evidence
deriving DecidableEq

/-- Model of `next(r for r in rules if r.rule_code == code)`; on the fixed
`APA7_LAYOUT_RULES` table every lookup the validator performs succeeds,
so the default is never reached there. -/
def findRule (rules : List LayoutRule) (code : String) : LayoutRule :=
  (rules.find? (fun r => r.rule_code == code)).getD ⟨"", "", "", false⟩

/-- Python's `abs` on a rational. -/
def ratAbs (q : ℚ) : ℚ := if q < 0 then -q else q

/-- Model of `_check_margin` of `validator.py`: `abs(value - required) <= tolerance`. -/
def check_margin (value : Option ℚ) (required tolerance : ℚ) : Bool :=
  match value with
  | none => false
  | some v => decide (ratAbs (v - required) ≤ tolerance)

/-- Model of `getattr(facts, margin_name)` for the four margin fact names. -/
def getMargin (facts : LayoutFacts) (margin_name : String) : Option ℚ :=
  if margin_name == "margin_top" then facts.margin_top
  else if margin_name == "margin_bottom" then facts.margin_bottom
  else if margin_name == "margin_left" then facts.margin_left
  else facts.margin_right

/-- Model of `_evaluate_margin_rule` of `validator.py`. -/
def evaluate_margin_rule (rule : LayoutRule) (facts : LayoutFacts) (margin_name : String) :
    LayoutVerdict :=
  let actual_value := getMargin facts margin_name
  let matchB := check_margin actual_value REQUIRED_MARGIN MARGIN_TOLERANCE
  let evidence : Evidence :=
    ⟨rule.rule_code, margin_name, EvVal.num REQUIRED_MARGIN, optNum actual_value, matchB⟩
  ⟨rule.rule_code, rule.description, cond matchB "PASS" "FAIL", rule.severity, rule.blocking,
   [evidence]⟩

/-- Model of `rule_code_map` of `_evaluate_font_rules`. -/
def rule_code_map : List (String × String) :=
  [("Times New Roman", "APA7-FONT-SIZE-TNR"), ("Calibri", "APA7-FONT-SIZE-CALIBRI"),
   ("Arial", "APA7-FONT-SIZE-ARIAL"), ("Georgia", "APA7-FONT-SIZE-GEORGIA")]

/-- Model of `font_name in VALID_FONTS` (dict key membership; `None` is never a key). -/
def fontIsValid (font_name : Option String) : Bool :=
  match font_name with
  | none => false
  | some n => (VALID_FONTS.find? (fun p => p.1 == n)).isSome

/-- Model of `_evaluate_font_rules` of `validator.py`.  Python guards the size
check with `if font_is_valid and font_name:`; a valid font name is one of
the four non-empty keys of `VALID_FONTS`, so the truthiness conjunct is
redundant and the guard reduces to `font_is_valid`. -/
def evaluate_font_rules (rules : List LayoutRule) (facts : LayoutFacts) : List LayoutVerdict :=
  let font_valid_rule := findRule rules "APA7-FONT-VALID"
  let font_name := facts.font_name
  let font_is_valid := fontIsValid font_name
  let evidence_font : Evidence :=
    ⟨"APA7-FONT-VALID", "font_name", EvVal.strList (VALID_FONTS.map Prod.fst),
     optStr font_name, font_is_valid⟩
  let head : LayoutVerdict :=
    ⟨"APA7-FONT-VALID", font_valid_rule.description, cond font_is_valid "PASS" "FAIL",
     font_valid_rule.severity, font_valid_rule.blocking, [evidence_font]⟩
  match font_name with
  | none => [head]
  | some n =>
    if (VALID_FONTS.find? (fun p => p.1 == n)).isSome then
      let required_size := ((VALID_FONTS.find? (fun p => p.1 == n)).map Prod.snd).getD 0
      let actual_size := facts.font_size
      let size_match := match actual_size with
        | some a => decide (a = required_size)
        | none => false
      match (rule_code_map.find? (fun p => p.1 == n)).map Prod.snd with
      | some rc =>
        let size_rule := findRule rules rc
        let evidence_size : Evidence :=
          ⟨rc, "font_size", EvVal.num required_size, optNum actual_size, size_match⟩
        [head,
         ⟨rc, size_rule.description, cond size_match "PASS" "FAIL", size_rule.severity,
          size_rule.blocking, [evidence_size]⟩]
      | none => [head]
    else [head]

/-- Model of `_evaluate_line_spacing_rule` of `validator.py`. -/
def evaluate_line_spacing_rule (rule : LayoutRule) (facts : LayoutFacts) : LayoutVerdict :=
  let actual_value := facts.line_spacing
  let matchB := match actual_value with
    | some a => decide (a = REQUIRED_LINE_SPACING)
    | none => false
  let evidence : Evidence :=
    ⟨rule.rule_code, "line_spacing", EvVal.num REQUIRED_LINE_SPACING, optNum actual_value, matchB⟩
  ⟨rule.rule_code, rule.description, cond matchB "PASS" "FAIL", rule.severity, rule.blocking,
   [evidence]⟩

/-- Model of `_evaluate_page_numbering_rule` of `validator.py`
(`match = actual_value is True`). -/
def evaluate_page_numbering_rule (rule : LayoutRule) (facts : LayoutFacts) : LayoutVerdict :=
  let actual_value := facts.page_numbering
  let matchB := decide (actual_value = some true)
  let evidence : Evidence :=
    ⟨rule.rule_code, "page_numbering", EvVal.bool true, optBool actual_value, matchB⟩
  ⟨rule.rule_code, rule.description, cond matchB "PASS" "FAIL", rule.severity, rule.blocking,
   [evidence]⟩

/-- The `margin_rules` pair list inside `validate_apa7_layout`. -/
def margin_rule_pairs : List (String × String) :=
  [("APA7-MARGIN-TOP", "margin_top"), ("APA7-MARGIN-BOTTOM", "margin_bottom"),
   ("APA7-MARGIN-LEFT", "margin_left"), ("APA7-MARGIN-RIGHT", "margin_right")]

/-- Model of `validate_apa7_layout` of `validator.py`: margin verdicts, font
verdicts, line spacing, page numbering, in that order. -/
def validate_apa7_layout (facts : LayoutFacts) : List LayoutVerdict :=
  (margin_rule_pairs.map
    (fun p => evaluate_margin_rule (findRule APA7_LAYOUT_RULES p.1) facts p.2))
  ++ evaluate_font_rules APA7_LAYOUT_RULES facts
  ++ [evaluate_line_spacing_rule (findRule APA7_LAYOUT_RULES "APA7-LINE-SPACING") facts]
  ++ [evaluate_page_numbering_rule (findRule APA7_LAYOUT_RULES "APA7-PAGE-NUMBERING") facts]

/-- The stage-result dict returned by `apa7_layout_stage` (`stage.py`).
`output` holds the verdicts (the source serializes them with `to_dict()`,
a field-for-field conversion); the `metadata` entry (hash bookkeeping,
rule counts) is referenced by no claim and is not modelled. -/
structure StageOutcome where
  ok : Bool
  blocking : Bool
  output : List LayoutVerdict
  error : Option String
deriving DecidableEq

/-- Input to `apa7_layout_stage`.  `wellFormed` is a context of the shape
`extract_layout_facts` expects, on which extraction and validation are
total and raise no exception.  `malformed msg` models a context on which
the Python body raises an exception rendered as `msg` (e.g. a `"metadata"`
entry that is not a dict), reaching the `except` branch. -/
inductive StageInput where
  | wellFormed (context : LayoutContext)
  | malformed (msg : String)

/-- Model of `apa7_layout_stage` of `stage.py`: the `try` branch extracts facts,
validates, and reports `ok = all rules passed`; the `except` branch
reports a technical error with empty output. -/
def apa7_layout_stage : StageInput → StageOutcome
  | StageInput.wellFormed context =>
    let facts := extract_layout_facts context
    let verdicts := validate_apa7_layout facts
    let all_passed := verdicts.all (fun v => v.result == "PASS")
    ⟨all_passed, true, verdicts, none⟩
  | StageInput.malformed msg =>
    ⟨false, true, [], some ("Technical error in APA7 layout validation: " ++ msg)⟩

end Apa7

/- ### Structural equality of Python values

Two Python values are structurally equal when they agree on primitives,
agree pointwise on sequences, and agree as key/value maps — irrespective
of dict insertion order.  `structEqB` decides this by comparing dict
entries after sorting them by key (Python dict keys are unique, so
key-sorting canonicalizes the insertion order away). -/

theorem sizeOf_orderedInsert_keyLePV (p : String × PyVal) (l : List (String × PyVal)) :
    sizeOf (List.orderedInsert keyLePV p l) = sizeOf (p :: l) := by
  induction l with
  | nil => simp [List.orderedInsert]
  | cons q t ih =>
    by_cases h : keyLePV p q
    · simp [List.orderedInsert, h]
    · simp only [List.orderedInsert, if_neg h, List.cons.sizeOf_spec, ih]
      omega

theorem sizeOf_insertionSort_keyLePV (l : List (String × PyVal)) :
    sizeOf (List.insertionSort keyLePV l) = sizeOf l := by
  induction l with
  | nil => rfl
  | cons p t ih =>
    simp only [List.insertionSort, sizeOf_orderedInsert_keyLePV, List.cons.sizeOf_spec, ih]

mutual

/-- Decidable structural equality of Python values (dicts compared as
key-sorted entry lists). -/
def structEqB : PyVal → PyVal → Bool
  | PyVal.null, PyVal.null => true
  | PyVal.bool a, PyVal.bool b => a == b
  | PyVal.int a, PyVal.int b => a == b
  | PyVal.str a, PyVal.str b => a == b
  | PyVal.list xs, PyVal.list ys => listStructEqB xs ys
  | PyVal.dict a, PyVal.dict b =>
      entriesStructEqB (List.insertionSort keyLePV a) (List.insertionSort keyLePV b)
  | _, _ => false
termination_by v _ => sizeOf v
decreasing_by
  all_goals simp_all [sizeOf_insertionSort_keyLePV]

def listStructEqB : List PyVal → List PyVal → Bool
  | [], [] => true
  | x :: xs, y :: ys => structEqB x y && listStructEqB xs ys
  | _, _ => false
termination_by xs _ => sizeOf xs
decreasing_by
  all_goals simp_all
  omega

def entriesStructEqB : List (String × PyVal) → List (String × PyVal) → Bool
  | [], [] => true
  | (k1, v1) :: xs, (k2, v2) :: ys => k1 == k2 && structEqB v1 v2 && entriesStructEqB xs ys
  | _, _ => false
termination_by xs _ => sizeOf xs
decreasing_by
  all_goals simp_all
  all_goals omega

end

/-- Serializing dict entries commutes with `orderedInsert` (the
comparison looks only at the key, which serialization preserves). -/
theorem dumpsEntries_orderedInsert (p : String × PyVal) (l : List (String × PyVal)) :
    dumpsEntries (List.orderedInsert keyLePV p l) =
      List.orderedInsert keyLe (p.1, dumpsCanon p.2) (dumpsEntries l) := by
  induction l with
  | nil => simp [List.orderedInsert, dumpsEntries]
  | cons q t ih =>
    by_cases h : p.1 ≤ q.1
    · have h1 : keyLePV p q := h
      have h2 : keyLe (p.1, dumpsCanon p.2) (q.1, dumpsCanon q.2) := h
      simp [List.orderedInsert, if_pos h1, if_pos h2, dumpsEntries]
    · have h1 : ¬ keyLePV p q := h
      have h2 : ¬ keyLe (p.1, dumpsCanon p.2) (q.1, dumpsCanon q.2) := h
      simp [List.orderedInsert, if_neg h1, if_neg h2, dumpsEntries, ih]

/-- Serializing dict entries commutes with the key sort. -/
theorem dumpsEntries_insertionSort (l : List (String × PyVal)) :
    dumpsEntries (List.insertionSort keyLePV l) = List.insertionSort keyLe (dumpsEntries l) := by
  induction l with
  | nil => rfl
  | cons p t ih =>
    simp [List.insertionSort, dumpsEntries, dumpsEntries_orderedInsert, ih]

theorem dumpsList_congr : ∀ {xs ys : List PyVal},
    (∀ x ∈ xs, ∀ y, structEqB x y = true → dumpsCanon x = dumpsCanon y) →
    listStructEqB xs ys = true → dumpsList xs = dumpsList ys := by
  intro xs
  induction xs with
  | nil => intro ys _ h; cases ys with
    | nil => rfl
    | cons y ys => simp [listStructEqB] at h
  | cons x xs ih =>
    intro ys hmem h
    cases ys with
    | nil => simp [listStructEqB] at h
    | cons y ys =>
      simp only [listStructEqB, Bool.and_eq_true] at h
      have hx := hmem x (List.mem_cons_self x xs) y h.1
      have hrest := ih (fun z hz w hw => hmem z (List.mem_cons_of_mem x hz) w hw) h.2
      simp [dumpsList, hx, hrest]

theorem entriesDumps_congr : ∀ {xs ys : List (String × PyVal)},
    (∀ p ∈ xs, ∀ w, structEqB p.2 w = true → dumpsCanon p.2 = dumpsCanon w) →
    entriesStructEqB xs ys = true → dumpsEntries xs = dumpsEntries ys := by
  intro xs
  induction xs with
  | nil => intro ys _ h; cases ys with
    | nil => rfl
    | cons y ys => obtain ⟨k, v⟩ := y; simp [entriesStructEqB] at h
  | cons x xs ih =>
    intro ys hmem h
    obtain ⟨k1, v1⟩ := x
    cases ys with
    | nil => simp [entriesStructEqB] at h
    | cons y ys =>
      obtain ⟨k2, v2⟩ := y
      simp only [entriesStructEqB, Bool.and_eq_true, beq_iff_eq] at h
      have hv := hmem (k1, v1) (List.mem_cons_self _ xs) v2 h.1.2
      have hrest := ih (fun p hp w hw => hmem p (List.mem_cons_of_mem _ hp) w hw) h.2
      simp [dumpsEntries, hrest]
      exact ⟨h.1.1, hv⟩

/-- Structurally equal values have the same canonical serialization. -/
theorem structEqB_dumpsCanon : ∀ (v w : PyVal), structEqB v w = true →
    dumpsCanon v = dumpsCanon w := by
  intro v w h
  cases v with
  | null => cases w <;> simp_all [structEqB]
  | bool a => cases w <;> simp_all [structEqB]
  | int a => cases w <;> simp_all [structEqB]
  | str a => cases w <;> simp_all [structEqB]
  | list xs =>
    cases w <;> simp_all [structEqB]
    case list ys =>
    have hl : dumpsList xs = dumpsList ys :=
      dumpsList_congr (fun x hx y hxy => structEqB_dumpsCanon x y hxy) h
    simp [dumpsCanon, hl]
  | dict a =>
    cases w <;> simp_all [structEqB]
    case dict b =>
    have hd : dumpsEntries (List.insertionSort keyLePV a) =
        dumpsEntries (List.insertionSort keyLePV b) :=
      entriesDumps_congr (fun p hp w hw => structEqB_dumpsCanon p.2 w hw) h
    rw [dumpsEntries_insertionSort, dumpsEntries_insertionSort] at hd
    simp [dumpsCanon, hd]
termination_by v _ _ => sizeOf v
decreasing_by
  all_goals subst_vars
  · have h1 : sizeOf x < sizeOf xs := List.sizeOf_lt_of_mem hx
    simp only [PyVal.list.sizeOf_spec]
    omega
  · have hp2 : p ∈ a := ((List.perm_insertionSort keyLePV a).mem_iff).mp hp
    have h1 : sizeOf p < sizeOf a := List.sizeOf_lt_of_mem hp2
    obtain ⟨k, v2⟩ := p
    simp only [PyVal.dict.sizeOf_spec, Prod.mk.sizeOf_spec] at h1 ⊢
    omega

/- ### Supporting lemmas -/

/-- Python `sorted` gives the same output on any two permutations of the
same string list. -/
theorem sortStrings_perm {l₁ l₂ : List String} (h : l₁.Perm l₂) :
    sortStrings l₁ = sortStrings l₂ :=
  List.eq_of_perm_of_sorted
    ((List.perm_insertionSort _ l₁).trans (h.trans (List.perm_insertionSort _ l₂).symm))
    (List.sorted_insertionSort _ l₁) (List.sorted_insertionSort _ l₂)

/-- The blocking-failure bucket of the aggregator is exactly the verdicts
with `result == "FAIL"` and `severity == "error"`, in input order. -/
theorem aggregate_verdicts_fst (vs : List Verdict) :
    (aggregate_verdicts vs).1 =
      vs.filter (fun v => v.result == "FAIL" && v.severity == "error") := by
  induction vs with
  | nil => rfl
  | cons v rest ih =>
    by_cases hf : v.result == "FAIL" <;> by_cases hb : v.severity == "error" <;>
      simp [aggregate_verdicts, List.filter_cons, hf, hb, ih]

theorem apply_precedence_fail_iff (bf : List Verdict) :
    apply_precedence bf = "FAIL" ↔ bf ≠ [] := by
  unfold apply_precedence
  split
  · rename_i h
    simp only [List.length_pos] at h
    simp [h]
  · rename_i h
    have hbf : bf = [] := List.length_eq_zero.mp (by omega)
    subst hbf
    exact iff_of_false (by decide) (by simp)

/- ### Claim theorems -/

/-- Claim C1: for every verdict list handed to the decision engine
(`AranaStage.execute` via `aggregate_verdicts` and `apply_precedence`),
the resulting `Decision.status` is `"FAIL"` iff some verdict has
`result == "FAIL"` and `severity == "error"`; with no verdicts (missing
key or empty list) the status is `"PASS"`. -/
theorem claim_C1_decision_fail_iff_blocking_failure :
    (∀ ctx : AranaContext,
      (arana_decision ctx).status = "FAIL" ↔
        ∃ v ∈ ctx.verdictList, v.result = "FAIL" ∧ v.severity = "error") ∧
    (arana_decision ⟨none⟩).status = "PASS" ∧
    (arana_decision ⟨some []⟩).status = "PASS" := by
  refine ⟨fun ctx => ?_, rfl, rfl⟩
  have hst : (arana_decision ctx).status =
      apply_precedence ((aggregate_verdicts ctx.verdictList).1) := rfl
  rw [hst, aggregate_verdicts_fst, apply_precedence_fail_iff]
  constructor
  · intro hne
    obtain ⟨v, hv⟩ := List.exists_mem_of_ne_nil _ hne
    obtain ⟨hmem, hpred⟩ := List.mem_filter.mp hv
    simp only [Bool.and_eq_true, beq_iff_eq] at hpred
    exact ⟨v, hmem, hpred.1, hpred.2⟩
  · rintro ⟨v, hv, hres, hsev⟩ hnil
    have hvf : v ∈ ctx.verdictList.filter
        (fun v => v.result == "FAIL" && v.severity == "error") :=
      List.mem_filter.mpr ⟨hv, by simp [hres, hsev]⟩
    rw [hnil] at hvf
    exact absurd hvf (List.not_mem_nil v)

/-- Claim C9: `AranaStage.execute` always returns a blocking stage result
whose `ok` is exactly "the decision status is PASS" and whose output is
the constructed `Decision` — a FAIL decision presents itself to the
kernel as a blocking stage failure. -/
theorem claim_C9_arana_stage_result_shape :
    ∀ ctx : AranaContext,
      (arana_execute ctx).blocking = true ∧
      ((arana_execute ctx).ok = true ↔ (arana_decision ctx).status = "PASS") ∧
      (arana_execute ctx).output = some (arana_decision ctx) ∧
      (arana_execute ctx).error = none := by
  intro ctx
  refine ⟨rfl, ?_, rfl, rfl⟩
  show ((arana_decision ctx).status == "PASS") = true ↔ _
  simp [beq_iff_eq]

/-- Claim C5 counterexample: the constructors perform no enumeration
validation — a `Verdict` with `result = "MAYBE"`, a `Rule` with
`severity = "fatal"` and a `Decision` with `status = "MAYBE"` are all
produced rather than rejected. -/
theorem claim_C5_counterexample :
    ((("MAYBE" == "PASS") || ("MAYBE" == "FAIL")) = false ∧
      (Verdict.build "r1" "s1" "MAYBE" [] "because" "error").result = "MAYBE") ∧
    ((("fatal" == "error") || ("fatal" == "warning") || ("fatal" == "info")) = false ∧
      (Rule.build "RULE1" "1.0.0" "desc" "binary" "PASS" "title" "fatal").severity = "fatal") ∧
    ((("MAYBE" == "PASS") || ("MAYBE" == "FAIL")) = false ∧
      (Decision.build "MAYBE" [] [] []).status = "MAYBE") :=
  ⟨⟨by decide, rfl⟩, ⟨by decide, rfl⟩, ⟨by decide, rfl⟩⟩

/-- Claim C5 amended: construction never rejects an enumeration value
outside its closed set — `Rule.__post_init__`, `Verdict.__post_init__` and
`Decision.__post_init__` only compute the identity hash, so a record with
an out-of-set `result` / `status` / `severity` is produced with the given
field values. -/
theorem claim_C5_invalid_enums_accepted :
    (∀ (rid sid res : String) (eids : List String) (rsn sev : String),
      ((res == "PASS") || (res == "FAIL")) = false →
      (Verdict.build rid sid res eids rsn sev).result = res ∧
      (Verdict.build rid sid res eids rsn sev).severity = sev) ∧
    (∀ (c ver d lt cons ef sev : String),
      ((sev == "error") || (sev == "warning") || (sev == "info")) = false →
      (Rule.build c ver d lt cons ef sev).severity = sev) ∧
    (∀ (st : String) (bf nbf av : List Verdict),
      ((st == "PASS") || (st == "FAIL")) = false →
      (Decision.build st bf nbf av).status = st) :=
  ⟨fun _ _ _ _ _ _ _ => ⟨rfl, rfl⟩, fun _ _ _ _ _ _ _ _ => rfl, fun _ _ _ _ _ => rfl⟩

theorem claim_C5_witness :
    (Verdict.build "r1" "s1" "MAYBE" [] "because" "sev9").result = "MAYBE" ∧
    (Rule.build "RULE1" "1.0.0" "desc" "binary" "PASS" "title" "sev9").severity = "sev9" ∧
    (Decision.build "MAYBE" [] [] []).status = "MAYBE" :=
  ⟨(claim_C5_invalid_enums_accepted.1 "r1" "s1" "MAYBE" [] "because" "sev9" (by decide)).1,
   claim_C5_invalid_enums_accepted.2.1 "RULE1" "1.0.0" "desc" "binary" "PASS" "title" "sev9"
     (by decide),
   claim_C5_invalid_enums_accepted.2.2 "MAYBE" [] [] [] (by decide)⟩

/-- Claim C3: `hash_json` gives the identical digest on any two
structurally equal values (same primitives, same sequences in the same
order, same key/value maps regardless of key insertion order); hence
rebuilding a record from identical content always reproduces the identical
identity hash. -/
theorem claim_C3_hash_json_structural_congruence :
    ∀ v w : PyVal, structEqB v w = true → hash_json v = hash_json w :=
  fun v w h => congrArg hash_string (structEqB_dumpsCanon v w h)

theorem claim_C3_witness :
    structEqB (PyVal.dict [("b", PyVal.list [PyVal.str "x", PyVal.null]), ("a", PyVal.int 1)])
      (PyVal.dict [("a", PyVal.int 1), ("b", PyVal.list [PyVal.str "x", PyVal.null])]) = true ∧
    hash_json (PyVal.dict [("b", PyVal.list [PyVal.str "x", PyVal.null]), ("a", PyVal.int 1)]) =
      hash_json (PyVal.dict [("a", PyVal.int 1), ("b", PyVal.list [PyVal.str "x", PyVal.null])]) := by
  have h : structEqB
      (PyVal.dict [("b", PyVal.list [PyVal.str "x", PyVal.null]), ("a", PyVal.int 1)])
      (PyVal.dict [("a", PyVal.int 1), ("b", PyVal.list [PyVal.str "x", PyVal.null])]) = true := by
    simp +decide [structEqB, listStructEqB, entriesStructEqB, List.insertionSort,
      List.orderedInsert, keyLePV]
  exact ⟨h, claim_C3_hash_json_structural_congruence _ _ h⟩

/-- Claim C4: `Verdict.verdict_id` is invariant under permutation of
`evidence_ids`, and `Decision.decision_hash` is invariant under
permutation of each of its three verdict lists. -/
theorem claim_C4_permutation_invariance :
    (∀ (rid sid res rsn sev : String) (e₁ e₂ : List String), e₁.Perm e₂ →
      (Verdict.build rid sid res e₁ rsn sev).verdict_id =
        (Verdict.build rid sid res e₂ rsn sev).verdict_id) ∧
    (∀ (st : String) (bf₁ bf₂ nbf₁ nbf₂ av₁ av₂ : List Verdict),
      bf₁.Perm bf₂ → nbf₁.Perm nbf₂ → av₁.Perm av₂ →
      (Decision.build st bf₁ nbf₁ av₁).decision_hash =
        (Decision.build st bf₂ nbf₂ av₂).decision_hash) := by
  constructor
  · intro rid sid res rsn sev e₁ e₂ hperm
    show hash_json _ = hash_json _
    rw [sortStrings_perm hperm]
  · intro st bf₁ bf₂ nbf₁ nbf₂ av₁ av₂ h1 h2 h3
    show hash_json _ = hash_json _
    rw [sortStrings_perm (h1.map Verdict.verdict_id),
      sortStrings_perm (h2.map Verdict.verdict_id),
      sortStrings_perm (h3.map Verdict.verdict_id)]

theorem claim_C4_witness :
    (Verdict.build "r" "s" "PASS" ["e2", "e1"] "why" "error").verdict_id =
      (Verdict.build "r" "s" "PASS" ["e1", "e2"] "why" "error").verdict_id ∧
    (Decision.build "PASS" [] []
        [Verdict.build "r" "s" "PASS" [] "a" "info",
         Verdict.build "r" "s" "PASS" [] "b" "info"]).decision_hash =
      (Decision.build "PASS" [] []
        [Verdict.build "r" "s" "PASS" [] "b" "info",
         Verdict.build "r" "s" "PASS" [] "a" "info"]).decision_hash :=
  ⟨claim_C4_permutation_invariance.1 "r" "s" "PASS" "why" "error" _ _
    (List.Perm.swap "e1" "e2" []),
   claim_C4_permutation_invariance.2 "PASS" _ _ _ _ _ _ (List.Perm.refl _) (List.Perm.refl _)
    (List.Perm.swap _ _ [])⟩

/- ### Pipeline kernel lemmas and Claim C2 -/

/-- The halting condition of `Pipeline.execute`: `not result.ok and
result.blocking`, read from the returned `StageResult`. -/
def isBlockingFailure {α ε : Type} (r : StageResult α ε) : Bool := !r.ok && r.blocking

/-- The `BlockingStageError` raised for a failing stage definition. -/
def blockingErrorFor {γ α ε : Type} (sd : StageDefinition γ α ε) (ctx : γ) :
    BlockingStageErr α ε :=
  ⟨sd.name.value, "Stage failed with blocking=True", (sd.fn ctx).error, (sd.fn ctx).output⟩

theorem pipeline_execute_results {γ α ε : Type} (stages : List (StageDefinition γ α ε))
    (ctx : γ) :
    (pipeline_execute stages ctx).1 =
      (stages.take (stages.findIdx (fun sd => isBlockingFailure (sd.fn ctx)) + 1)).map
        (fun sd => sd.fn ctx) := by
  induction stages with
  | nil => rfl
  | cons sd rest ih =>
    by_cases hb : isBlockingFailure (sd.fn ctx)
    · simp only [isBlockingFailure] at hb
      simp [pipeline_execute, List.findIdx_cons, isBlockingFailure, hb]
    · simp only [isBlockingFailure, Bool.not_eq_true] at hb
      simp [pipeline_execute, List.findIdx_cons, isBlockingFailure, hb, ih]

theorem pipeline_execute_error {γ α ε : Type} (stages : List (StageDefinition γ α ε))
    (ctx : γ) :
    (pipeline_execute stages ctx).2 =
      (stages[stages.findIdx (fun sd => isBlockingFailure (sd.fn ctx))]?).map
        (fun sd => blockingErrorFor sd ctx) := by
  induction stages with
  | nil => rfl
  | cons sd rest ih =>
    by_cases hb : isBlockingFailure (sd.fn ctx)
    · simp only [isBlockingFailure] at hb
      simp [pipeline_execute, List.findIdx_cons, isBlockingFailure, hb, blockingErrorFor]
    · simp only [isBlockingFailure, Bool.not_eq_true] at hb
      simp [pipeline_execute, List.findIdx_cons, isBlockingFailure, hb, ih]

theorem pipeline_execute_no_error_iff {γ α ε : Type} (stages : List (StageDefinition γ α ε))
    (ctx : γ) :
    (pipeline_execute stages ctx).2 = none ↔
      stages.all (fun sd => !isBlockingFailure (sd.fn ctx)) = true := by
  induction stages with
  | nil => simp [pipeline_execute]
  | cons sd rest ih =>
    cases h1 : (sd.fn ctx).ok <;> cases h2 : (sd.fn ctx).blocking <;>
      simp [pipeline_execute, isBlockingFailure, h1, h2, ih]

theorem pipeline_execute_ignores_definition_blocking {γ α ε : Type}
    (stages : List (StageDefinition γ α ε)) (ctx : γ) (f : StageDefinition γ α ε → Bool) :
    pipeline_execute (stages.map (fun sd => { sd with blocking := f sd })) ctx =
      pipeline_execute stages ctx := by
  induction stages with
  | nil => rfl
  | cons sd rest ih =>
    by_cases hb : (!(sd.fn ctx).ok && (sd.fn ctx).blocking) = true
    · simp [pipeline_execute, hb]
    · simp [pipeline_execute, hb, ih]

/-- Claim C2: `Pipeline.execute` runs the stages in declared order; it
"raises" (second component `some`) exactly when some stage's returned
`StageResult` has `ok = false` and `blocking = true`, and then the error
names the first such stage, carries the fixed reason string and the
stage's error/output as details, and the recorded results stop at that
stage (non-blocking failures are recorded and execution continues); the
halt decision reads only the returned `StageResult.blocking`, never
`StageDefinition.blocking`. -/
theorem claim_C2_pipeline_blocking_halt {γ α ε : Type}
    (stages : List (StageDefinition γ α ε)) (ctx : γ) :
    ((pipeline_execute stages ctx).1 =
      (stages.take (stages.findIdx (fun sd => isBlockingFailure (sd.fn ctx)) + 1)).map
        (fun sd => sd.fn ctx)) ∧
    ((pipeline_execute stages ctx).2 =
      (stages[stages.findIdx (fun sd => isBlockingFailure (sd.fn ctx))]?).map
        (fun sd => blockingErrorFor sd ctx)) ∧
    ((pipeline_execute stages ctx).2 = none ↔
      stages.all (fun sd => !isBlockingFailure (sd.fn ctx)) = true) ∧
    (∀ f : StageDefinition γ α ε → Bool,
      pipeline_execute (stages.map (fun sd => { sd with blocking := f sd })) ctx =
        pipeline_execute stages ctx) :=
  ⟨pipeline_execute_results stages ctx, pipeline_execute_error stages ctx,
   pipeline_execute_no_error_iff stages ctx,
   fun f => pipeline_execute_ignores_definition_blocking stages ctx f⟩

/- ### Layout module claims -/

theorem ratAbs_eq_abs (q : ℚ) : Apa7.ratAbs q = |q| := by
  unfold Apa7.ratAbs
  split
  · exact (abs_of_neg (by assumption)).symm
  · exact (abs_of_nonneg (not_lt.mp (by assumption))).symm

/-- Scenario A context: margins all 1.000 in, Times New Roman 12pt,
double spacing, page numbering present. -/
def scenarioA : Apa7.LayoutContext :=
  ⟨some ⟨some ⟨some 1, some 1, some 1, some 1, some "Times New Roman", some 12, some 2,
    some true⟩⟩⟩

/-- Scenario B context: as A but `margin_top = 0.75`. -/
def scenarioB : Apa7.LayoutContext :=
  ⟨some ⟨some ⟨some (3 / 4), some 1, some 1, some 1, some "Times New Roman", some 12, some 2,
    some true⟩⟩⟩

/-- Claim C6: the top-margin rule verdict is PASS iff the margin fact is
present with `|value - REQUIRED_MARGIN| ≤ MARGIN_TOLERANCE`
(tolerance 0.01); concretely `margin_top = 1.005` passes,
`margin_top = 1.02` fails, and an absent margin fails. -/
theorem claim_C6_margin_tolerance :
    (∀ facts : Apa7.LayoutFacts,
      (Apa7.evaluate_margin_rule (Apa7.findRule Apa7.APA7_LAYOUT_RULES "APA7-MARGIN-TOP")
          facts "margin_top").result = "PASS" ↔
        ∃ x : ℚ, facts.margin_top = some x ∧
          |x - Apa7.REQUIRED_MARGIN| ≤ Apa7.MARGIN_TOLERANCE) ∧
    (Apa7.evaluate_margin_rule (Apa7.findRule Apa7.APA7_LAYOUT_RULES "APA7-MARGIN-TOP")
        { margin_top := some (201 / 200) } "margin_top").result = "PASS" ∧
    (Apa7.evaluate_margin_rule (Apa7.findRule Apa7.APA7_LAYOUT_RULES "APA7-MARGIN-TOP")
        { margin_top := some (51 / 50) } "margin_top").result = "FAIL" ∧
    (Apa7.evaluate_margin_rule (Apa7.findRule Apa7.APA7_LAYOUT_RULES "APA7-MARGIN-TOP")
        { margin_top := none } "margin_top").result = "FAIL" := by
  refine ⟨fun facts => ?_, by with_unfolding_all decide, by with_unfolding_all decide,
    by with_unfolding_all decide⟩
  have hget : Apa7.getMargin facts "margin_top" = facts.margin_top := rfl
  cases hm : facts.margin_top with
  | none =>
    simp +decide [Apa7.evaluate_margin_rule, Apa7.check_margin, hget, hm]
  | some x =>
    simp only [Apa7.evaluate_margin_rule, Apa7.check_margin, hget, hm, ratAbs_eq_abs]
    by_cases hx : |x - Apa7.REQUIRED_MARGIN| ≤ Apa7.MARGIN_TOLERANCE <;>
      simp +decide [hx]

/-- Claim C7: on scenario A the stage reports `ok = true` with every
verdict PASS; on scenario B the top-margin verdict is FAIL carrying
evidence `expected 1.0, actual 0.75, match false`, and the stage reports
`ok = false`, `blocking = true`. -/
theorem claim_C7_scenarios_A_B :
    ((Apa7.apa7_layout_stage (Apa7.StageInput.wellFormed scenarioA)).ok = true ∧
     ∀ v ∈ (Apa7.apa7_layout_stage (Apa7.StageInput.wellFormed scenarioA)).output,
       v.result = "PASS") ∧
    ((Apa7.apa7_layout_stage (Apa7.StageInput.wellFormed scenarioB)).ok = false ∧
     (Apa7.apa7_layout_stage (Apa7.StageInput.wellFormed scenarioB)).blocking = true ∧
     ((Apa7.apa7_layout_stage (Apa7.StageInput.wellFormed scenarioB)).output.filter
        (fun v => v.rule_code == "APA7-MARGIN-TOP")) =
       [⟨"APA7-MARGIN-TOP", "Top margin must be exactly 1 inch", "FAIL", "critical", true,
         [⟨"APA7-MARGIN-TOP", "margin_top", Apa7.EvVal.num 1, Apa7.EvVal.num (3 / 4),
           false⟩]⟩]) := by
  with_unfolding_all decide

/-- Claim C8: the `except` branch of `apa7_layout_stage` reports
`ok = false, blocking = true, output = [],` and a non-empty error string;
every result of the `try` branch has `error = None` and non-empty output —
so a result with an error always has empty output, and a genuine rule
failure is reported with verdicts and no error. -/
theorem claim_C8_error_channel :
    ∀ inp : Apa7.StageInput,
      (match inp with
        | Apa7.StageInput.malformed msg =>
            Apa7.apa7_layout_stage inp =
              ⟨false, true, [],
                some ("Technical error in APA7 layout validation: " ++ msg)⟩ ∧
            0 < ("Technical error in APA7 layout validation: " ++ msg).length
        | Apa7.StageInput.wellFormed _ =>
            (Apa7.apa7_layout_stage inp).error = none ∧
            0 < (Apa7.apa7_layout_stage inp).output.length) ∧
      ((Apa7.apa7_layout_stage inp).output = [] ∨
        (Apa7.apa7_layout_stage inp).error = none) := by
  intro inp
  cases inp with
  | malformed msg =>
    refine ⟨⟨rfl, ?_⟩, Or.inl rfl⟩
    simp [String.length_append]
    exact Or.inl (by decide)
  | wellFormed context =>
    refine ⟨⟨rfl, ?_⟩, Or.inr rfl⟩
    show 0 < (Apa7.validate_apa7_layout (Apa7.extract_layout_facts context)).length
    simp [Apa7.validate_apa7_layout, Apa7.margin_rule_pairs]

/-- Claim C10: a context with no layout metadata extracts facts that are
all the absent marker and produces a rule-failure stage result — `ok =
false`, `error = None`, non-empty output with every verdict FAIL — not a
technical-error result. -/
theorem claim_C10_no_layout_metadata (ctx : Apa7.LayoutContext)
    (h : Apa7.layoutOf ctx = Apa7.emptyLayoutMeta) :
    Apa7.extract_layout_facts ctx = ⟨none, none, none, none, none, none, none, none⟩ ∧
    (Apa7.apa7_layout_stage (Apa7.StageInput.wellFormed ctx)).ok = false ∧
    (Apa7.apa7_layout_stage (Apa7.StageInput.wellFormed ctx)).error = none ∧
    0 < (Apa7.apa7_layout_stage (Apa7.StageInput.wellFormed ctx)).output.length ∧
    ∀ v ∈ (Apa7.apa7_layout_stage (Apa7.StageInput.wellFormed ctx)).output,
      v.result = "FAIL" := by
  have hf : Apa7.extract_layout_facts ctx = ⟨none, none, none, none, none, none, none, none⟩ := by
    simp [Apa7.extract_layout_facts, h, Apa7.emptyLayoutMeta]
  have hstage : Apa7.apa7_layout_stage (Apa7.StageInput.wellFormed ctx) =
      ⟨(Apa7.validate_apa7_layout ⟨none, none, none, none, none, none, none, none⟩).all
          (fun v => v.result == "PASS"), true,
        Apa7.validate_apa7_layout ⟨none, none, none, none, none, none, none, none⟩, none⟩ := by
    simp only [Apa7.apa7_layout_stage]
    rw [hf]
  refine ⟨hf, ?_, ?_, ?_, ?_⟩ <;> rw [hstage] <;> with_unfolding_all decide

theorem claim_C10_witness :
    Apa7.layoutOf ⟨none⟩ = Apa7.emptyLayoutMeta ∧
    (Apa7.extract_layout_facts ⟨none⟩ = ⟨none, none, none, none, none, none, none, none⟩ ∧
     (Apa7.apa7_layout_stage (Apa7.StageInput.wellFormed ⟨none⟩)).ok = false ∧
     (Apa7.apa7_layout_stage (Apa7.StageInput.wellFormed ⟨none⟩)).error = none ∧
     0 < (Apa7.apa7_layout_stage (Apa7.StageInput.wellFormed ⟨none⟩)).output.length ∧
     ∀ v ∈ (Apa7.apa7_layout_stage (Apa7.StageInput.wellFormed ⟨none⟩)).output,
       v.result = "FAIL") :=
  ⟨rfl, claim_C10_no_layout_metadata ⟨none⟩ rfl⟩
